import Mathlib

/-
Verification development for the remote rollout processor server
(`remote_server.py`).  The Python module exposes one endpoint, `init`,
which registers a per-rollout logging filter and starts a daemon worker
thread; the worker validates the request, builds the completion call
arguments, issues a chat completion, and terminates with log records that
may carry a `Status`.  Below is a shallow embedding: the worker body
becomes a pure function from the request, the process-wide
`force_early_error_message` configuration and the outcome of the (external)
completion call, to the ordered list of observable events it produces (log
records and the outbound completion call), together with the exception, if
any, that would escape the worker function.
-/

set_option autoImplicit false

namespace RemoteServer

/-- Python-style scalar values as they may appear in `completion_params`
(a JSON-shaped mapping in the request body). -/
inductive PyVal where
  | vStr (s : String)
  | vInt (n : Int)
  | vBool (b : Bool)
  | vNone
  deriving DecidableEq, Repr

/-- Python truthiness of a scalar: `""`, `0`, `False` and `None` are falsy.
This is the test the worker applies as `if not model:`. -/
def PyVal.truthy : PyVal → Bool
  | .vStr s => !(s == "")
  | .vInt n => !(n == 0)
  | .vBool b => b
  | .vNone => false

/-- Truthiness of `completion_params.get("model")`: an absent key yields
`None`, which is falsy. -/
def truthyOpt : Option PyVal → Bool
  | some v => v.truthy
  | none => false

/-- Truthiness of the optional `force_early_error_message` string
(`if force_early_error_message:` in the worker): `None` and the empty
string are falsy. -/
def pyTruthyStr : Option String → Bool
  | some s => !(s == "")
  | none => false

/-- One chat message of the request body. -/
structure Message where
  role : String
  content : String
  deriving DecidableEq, Repr

/-- Tool definitions are opaque payloads to this server; only their
presence matters (`if req.tools:`). -/
abbrev Tool := String

/-- Request metadata; the server reads only `rollout_id`. -/
structure Metadata where
  rollout_id : String
  deriving DecidableEq, Repr

/-- The `InitRequest` body of the `/init` endpoint: `metadata.rollout_id`,
the chat `messages`, the `completion_params` mapping (modelled as the
insertion-ordered item list of a Python dict), optional `tools` and an
optional `model_base_url`. -/
structure InitRequest where
  metadata : Metadata
  messages : List Message
  completion_params : List (String × PyVal)
  tools : Option (List Tool)
  model_base_url : Option String
  deriving DecidableEq, Repr

/-- Python dict lookup `d.get(k)` on an insertion-ordered item list. -/
def dictGet {α : Type} (d : List (String × α)) (k : String) : Option α :=
  (d.find? (fun p => p.1 == k)).map (fun p => p.2)

/-- Python dict assignment `d[k] = v`: update in place if the key exists
(keeping its position), otherwise append at the end. -/
def dictInsert {α : Type} (d : List (String × α)) (k : String) (v : α) :
    List (String × α) :=
  if d.any (fun p => p.1 == k) then
    d.map (fun p => if p.1 == k then (k, v) else p)
  else d ++ [(k, v)]

/-- Values of the `completion_kwargs` dict built by the worker: the
`messages` list, a scalar spread from `completion_params`, or the `tools`
list. -/
inductive KwVal where
  | msgs (l : List Message)
  | prim (v : PyVal)
  | toolList (l : List Tool)
  deriving DecidableEq, Repr

/-- Truthiness of `req.tools` (`if req.tools:`): `None` and the empty list
are falsy. -/
def toolsTruthy : Option (List Tool) → Bool
  | some l => !l.isEmpty
  | none => false

/-- The dict literal `{"messages": req.messages, **req.completion_params}`
followed by `completion_kwargs["tools"] = req.tools` when `req.tools` is
truthy, exactly as the worker builds its outbound call arguments. -/
def completion_kwargs (req : InitRequest) : List (String × KwVal) :=
  let base := req.completion_params.foldl
    (fun d p => dictInsert d p.1 (KwVal.prim p.2))
    [("messages", KwVal.msgs req.messages)]
  if toolsTruthy req.tools then
    dictInsert base "tools" (KwVal.toolList (req.tools.getD []))
  else base

/-- The rollout status taxonomy of `eval_protocol.Status`: `running`,
`finished` (the value of `Status.rollout_finished()`) and
`rollout_error(message)`. -/
inductive Status where
  | running
  | finished
  | rollout_error (message : String)
  deriving DecidableEq, Repr

/-- A status is terminal when it is `finished` or `rollout_error`. -/
def Status.isTerminal : Status → Bool
  | .running => false
  | .finished => true
  | .rollout_error _ => true

/-- Log levels used by the worker (`logger.info` / `logger.error`). -/
inductive Level where
  | info
  | error
  deriving DecidableEq, Repr

/-- Exceptions that can be raised inside the worker body: the two
`ValueError`s of validation, the `RuntimeError` of the forced-error path,
and whatever exception the completion call raises (network, auth,
provider errors — all `Exception` subclasses). -/
inductive PyExc where
  | valueError (msg : String)
  | runtimeError (msg : String)
  | apiError (msg : String)
  deriving DecidableEq, Repr

/-- The structured content of each of the worker's log messages, one
constructor per logging site in the source. -/
inductive LogMsg where
  | finalKwargs (kwargs : List (String × KwVal))
  | sendingRequest (model : PyVal)
  | completedResponse (resp : String)
  | forcedError (message : String)
  | workerError (rollout_id : String) (exc : PyExc)
  | rolloutCompleted (rollout_id : String)
  deriving DecidableEq, Repr

/-- A log record as it leaves the rollout-scoped logger: the
`RolloutIdFilter` stamps `rollout_id` onto every record, and the `extra`
argument optionally carries a `Status`. -/
structure LogRecord where
  rollout_id : String
  level : Level
  msg : LogMsg
  status : Option Status
  deriving DecidableEq, Repr

/-- An observable event of the worker: a log record handed to the tracing
handler, or the outbound completion call with its keyword arguments. -/
inductive Event where
  | log (r : LogRecord)
  | completionCall (kwargs : List (String × KwVal))
  deriving DecidableEq, Repr

/-- The outcome of `client.chat.completions.create(**completion_kwargs)`,
an external collaborator: it returns a response or raises. -/
inductive CompletionOutcome where
  | success (resp : String)
  | raises (msg : String)
  deriving DecidableEq, Repr

/-- The `try:` block of the worker, as a function from the request, the
process-wide `force_early_error_message` and the completion outcome to
the events it emits in program order, plus the exception (if any) leaving
the block.  Mirrors lines 31 to 59 of `remote_server.py`: validate
`messages` and `model`, build and log `completion_kwargs`, construct the
client, log and issue the completion call, log the response, and on the
forced-error override log a `rollout_error` status and raise. -/
def tryBody (req : InitRequest) (force_early_error_message : Option String)
    (outcome : CompletionOutcome) : List Event × Option PyExc :=
  let rid := req.metadata.rollout_id
  if req.messages.isEmpty then
    ([], some (PyExc.valueError "messages is required"))
  else
    let model := dictGet req.completion_params "model"
    if !truthyOpt model then
      ([], some (PyExc.valueError "model is required in completion_params"))
    else
      let kwargs := completion_kwargs req
      let pre : List Event :=
        [Event.log ⟨rid, Level.info, LogMsg.finalKwargs kwargs, none⟩,
         Event.log ⟨rid, Level.info, LogMsg.sendingRequest (model.getD PyVal.vNone), none⟩,
         Event.completionCall kwargs]
      match outcome with
      | .raises e => (pre, some (PyExc.apiError e))
      | .success resp =>
        let post : List Event :=
          [Event.log ⟨rid, Level.info, LogMsg.completedResponse resp, none⟩]
        if pyTruthyStr force_early_error_message then
          let m := force_early_error_message.getD ""
          (pre ++ post ++
            [Event.log ⟨rid, Level.error, LogMsg.forcedError m,
              some (Status.rollout_error m)⟩],
           some (PyExc.runtimeError m))
        else (pre ++ post, none)

/-- The `except Exception` clause: every modelled exception is an
`Exception` subclass, so the handler matches it, logs it at error level
with no status attached, and swallows it; the returned option is the
exception that still escapes (always `none` here). -/
def exceptClause (rid : String) : Option PyExc → List Event × Option PyExc
  | none => ([], none)
  | some e => ([Event.log ⟨rid, Level.error, LogMsg.workerError rid e, none⟩], none)

/-- The `finally` clause: when `force_early_error_message` is falsy, log
the `Rollout completed` record carrying `Status.rollout_finished()`. -/
def finallyClause (rid : String) (force_early_error_message : Option String) :
    List Event :=
  if pyTruthyStr force_early_error_message then []
  else [Event.log ⟨rid, Level.info, LogMsg.rolloutCompleted rid, some Status.finished⟩]

/-- The whole `_worker` function: run the `try` body, feed its escaping
exception to the `except Exception` handler, then run the `finally`
clause; the result is the event trace in program order and the exception
(if any) propagating out of `_worker`. -/
def worker (req : InitRequest) (force_early_error_message : Option String)
    (outcome : CompletionOutcome) : List Event × Option PyExc :=
  let rid := req.metadata.rollout_id
  let t := tryBody req force_early_error_message outcome
  let h := exceptClause rid t.2
  (t.1 ++ h.1 ++ finallyClause rid force_early_error_message, h.2)

/-- The event trace of one worker run. -/
def workerEvents (req : InitRequest) (force_early_error_message : Option String)
    (outcome : CompletionOutcome) : List Event :=
  (worker req force_early_error_message outcome).1

/-- What `init` itself does synchronously, per the source: it reads no
field other than `metadata.rollout_id`, attaches a `RolloutIdFilter` for
that id, starts the worker thread, and returns `None` to the framework —
it performs no validation and can return no error. -/
structure InitEffect where
  filter_rollout_id : String
  worker_started : Bool
  validation_error : Option String
  deriving DecidableEq, Repr

/-- The `init` endpoint handler, lines 24 to 73 of `remote_server.py`:
unconditionally register the filter keyed by the request's rollout id,
start the worker thread, return nothing. -/
def init (req : InitRequest) : InitEffect :=
  { filter_rollout_id := req.metadata.rollout_id
    worker_started := true
    validation_error := none }

/-- Process-wide logger state transition of one `init` call: `addFilter`
appends a `RolloutIdFilter` keyed by the request's rollout id; nothing in
the module ever calls `removeFilter`. -/
def addFilterStep (filters : List String) (req : InitRequest) : List String :=
  filters ++ [req.metadata.rollout_id]

/-- The process-wide filter state after a sequence of `init` calls. -/
def runInits (filters : List String) (reqs : List InitRequest) : List String :=
  reqs.foldl addFilterStep filters

/-- The status carried by an event, when it is a log record with one. -/
def Event.statusOf : Event → Option Status
  | .log r => r.status
  | .completionCall _ => none

/-- Whether an event is the outbound completion call. -/
def Event.isCompletionCall : Event → Bool
  | .completionCall _ => true
  | .log _ => false

/-- The log records of a trace stamped with a given rollout id. -/
def recordsFor (rid : String) (evs : List Event) : List LogRecord :=
  evs.filterMap (fun e => match e with
    | .log r => if r.rollout_id == rid then some r else none
    | .completionCall _ => none)

/-- The statuses attached to a trace's log records, in order. -/
def statusRecords (evs : List Event) : List Status :=
  evs.filterMap Event.statusOf

/-- The statuses attached to the records of one rollout id, in order. -/
def statusRecordsFor (rid : String) (evs : List Event) : List Status :=
  (recordsFor rid evs).filterMap (fun r => r.status)

/-- The terminal statuses (`finished` or `rollout_error`) of one rollout
id in a trace, in order. -/
def terminalStatusesFor (rid : String) (evs : List Event) : List Status :=
  (statusRecordsFor rid evs).filter Status.isTerminal

/-- The request-validity check the worker performs before doing any work:
`messages` non-empty and a truthy `model` in `completion_params`. -/
def validRequest (req : InitRequest) : Bool :=
  !req.messages.isEmpty && truthyOpt (dictGet req.completion_params "model")

/-- A well-formed request: one user message and a model name. -/
def reqHello : InitRequest :=
  { metadata := { rollout_id := "r1" }
    messages := [{ role := "user", content := "hi" }]
    completion_params := [("model", PyVal.vStr "m")]
    tools := none
    model_base_url := none }

/-- A request with an empty `messages` list. -/
def reqNoMsgs : InitRequest :=
  { metadata := { rollout_id := "r3" }
    messages := []
    completion_params := [("model", PyVal.vStr "m")]
    tools := none
    model_base_url := none }

/-- A request whose `tools` field is present but an empty list. -/
def reqEmptyTools : InitRequest :=
  { metadata := { rollout_id := "r2" }
    messages := [{ role := "user", content := "hi" }]
    completion_params := [("model", PyVal.vStr "m")]
    tools := some []
    model_base_url := none }

/-- A request carrying one tool definition. -/
def reqWithTools : InitRequest :=
  { metadata := { rollout_id := "r4" }
    messages := [{ role := "user", content := "hi" }]
    completion_params := [("model", PyVal.vStr "m")]
    tools := some ["toolA"]
    model_base_url := none }

/-- On a request with empty `messages` or without a `model` key, the `try`
block raises one of the two `ValueError`s before emitting any event. -/
lemma tryBody_invalid (req : InitRequest) (fee : Option String) (c : CompletionOutcome)
    (h : req.messages = [] ∨ dictGet req.completion_params "model" = none) :
    tryBody req fee c = ([], some (PyExc.valueError "messages is required")) ∨
      tryBody req fee c = ([], some (PyExc.valueError "model is required in completion_params")) := by
  by_cases hm : req.messages.isEmpty
  · left
    simp [tryBody, hm]
  · right
    rw [Bool.not_eq_true] at hm
    rcases h with h | h
    · simp [h] at hm
    · simp [tryBody, hm, h, truthyOpt]

/-- The `finally` clause never issues a completion call. -/
lemma finallyClause_no_call (rid : String) (fee : Option String) :
    (finallyClause rid fee).all (fun e => !e.isCompletionCall) = true := by
  unfold finallyClause
  split <;> simp [Event.isCompletionCall]

/-- Assigning a key that is not yet in the dict appends the entry. -/
lemma dictInsert_fresh {α : Type} (d : List (String × α)) (k : String) (v : α)
    (h : d.any (fun q => q.1 == k) = false) : dictInsert d k v = d ++ [(k, v)] := by
  simp [dictInsert, h]

/-- Spreading a dict whose keys are pairwise distinct and absent from the
accumulator just appends its entries in order. -/
lemma foldl_dictInsert_fresh (ps : List (String × PyVal)) :
    ∀ acc : List (String × KwVal),
      (ps.map Prod.fst).Nodup →
      (∀ k ∈ ps.map Prod.fst, acc.any (fun q => q.1 == k) = false) →
      ps.foldl (fun d p => dictInsert d p.1 (KwVal.prim p.2)) acc =
        acc ++ ps.map (fun p => (p.1, KwVal.prim p.2)) := by
  induction ps with
  | nil =>
    intro acc _ _
    simp
  | cons p rest ih =>
    intro acc hnd hfresh
    have hp : acc.any (fun q => q.1 == p.1) = false := hfresh p.1 (by simp)
    have hnd' : (rest.map Prod.fst).Nodup := (List.nodup_cons.mp (by simpa using hnd)).2
    have hnotin : p.1 ∉ rest.map Prod.fst := (List.nodup_cons.mp (by simpa using hnd)).1
    have hfresh' : ∀ k ∈ rest.map Prod.fst,
        (acc ++ [(p.1, KwVal.prim p.2)]).any (fun q => q.1 == k) = false := by
      intro k hk
      have h1 : acc.any (fun q => q.1 == k) = false := hfresh k (by simp [hk])
      have h2 : (p.1 == k) = false := by
        refine beq_eq_false_iff_ne.mpr ?_
        intro hEq
        exact hnotin (hEq ▸ hk)
      simp [List.any_append, h1, h2]
    rw [List.foldl_cons, dictInsert_fresh acc p.1 (KwVal.prim p.2) hp, ih _ hnd' hfresh']
    simp

/-- Claim C1 (amended): a request with empty `messages` or without a
`model` key is not rejected by `init`; `init` returns no validation error
and starts a Worker anyway, and the Worker (which never reaches the
completion call) produces log records for that rollout id, among them an
error-level record for the internal `ValueError`. -/
theorem c1_validation_inside_worker (req : InitRequest) (fee : Option String)
    (c : CompletionOutcome)
    (h : req.messages = [] ∨ dictGet req.completion_params "model" = none) :
    (init req).validation_error = none ∧ (init req).worker_started = true ∧
      (workerEvents req fee c).all (fun e => !e.isCompletionCall) = true ∧
      (recordsFor req.metadata.rollout_id (workerEvents req fee c)).any
        (fun r => r.level == Level.error) = true := by
  refine ⟨rfl, rfl, ?_, ?_⟩
  · rcases tryBody_invalid req fee c h with ht | ht <;>
      simpa [workerEvents, worker, ht, exceptClause, Event.isCompletionCall,
        List.all_append] using finallyClause_no_call req.metadata.rollout_id fee
  · rcases tryBody_invalid req fee c h with ht | ht <;>
      simp [workerEvents, worker, ht, exceptClause, recordsFor,
        List.filterMap_append, List.any_append]

/-- Claim C1, hypothesis discharged at the empty-messages request. -/
theorem c1_validation_inside_worker_witness :
    (reqNoMsgs.messages = [] ∨ dictGet reqNoMsgs.completion_params "model" = none) ∧
      ((init reqNoMsgs).validation_error = none ∧ (init reqNoMsgs).worker_started = true ∧
        (workerEvents reqNoMsgs none (CompletionOutcome.success "ok")).all
          (fun e => !e.isCompletionCall) = true ∧
        (recordsFor reqNoMsgs.metadata.rollout_id
            (workerEvents reqNoMsgs none (CompletionOutcome.success "ok"))).any
          (fun r => r.level == Level.error) = true) :=
  ⟨Or.inl rfl,
    c1_validation_inside_worker reqNoMsgs none (CompletionOutcome.success "ok") (Or.inl rfl)⟩

/-- Claim C1 fails as stated: at the empty-messages request, `init`
returns no validation error and log records for that rollout id are
produced. -/
theorem c1_counterexample :
    (init reqNoMsgs).validation_error = none ∧
      recordsFor "r3" (workerEvents reqNoMsgs none (CompletionOutcome.success "ok")) ≠ [] := by
  decide

/-- Claim C2 fails on the code: with the override set to `boom`, a raising
completion call leaves zero terminal status records for the rollout, while
a successful call leaves exactly one; the guaranteed single terminal
status is violated in the first case. -/
theorem c2_zero_terminal_statuses_on_override_and_raise :
    terminalStatusesFor "r1"
        (workerEvents reqHello (some "boom") (CompletionOutcome.raises "connection reset")) = [] ∧
      terminalStatusesFor "r1"
        (workerEvents reqHello (some "boom") (CompletionOutcome.success "ok")) =
        [Status.rollout_error "boom"] := by
  decide

/-- Claim C3 fails on the code: with the override set to `boom` and a
raising completion call, no `rollout_error` status — indeed no status at
all — is logged for the rollout. -/
theorem c3_no_error_status_when_call_raises :
    pyTruthyStr (some "boom") = true ∧
      statusRecordsFor "r1"
        (workerEvents reqHello (some "boom") (CompletionOutcome.raises "timeout")) = [] := by
  decide

/-- Claim C4: with the override unset, a raising completion call on a
valid request still yields exactly one status record for the rollout, and
it is `finished` — the failure is swallowed and never surfaced as an
error status. -/
theorem c4_raise_swallowed_into_finished (req : InitRequest) (e : String)
    (hv : validRequest req = true) :
    statusRecordsFor req.metadata.rollout_id
      (workerEvents req none (CompletionOutcome.raises e)) = [Status.finished] := by
  rw [validRequest, Bool.and_eq_true, Bool.not_eq_true'] at hv
  obtain ⟨hm, hmod⟩ := hv
  simp [workerEvents, worker, tryBody, hm, hmod, exceptClause, finallyClause,
    pyTruthyStr, statusRecordsFor, recordsFor]

/-- Claim C4, hypothesis discharged at the well-formed request. -/
theorem c4_raise_swallowed_into_finished_witness :
    validRequest reqHello = true ∧
      statusRecordsFor reqHello.metadata.rollout_id
        (workerEvents reqHello none (CompletionOutcome.raises "net down")) = [Status.finished] :=
  ⟨by decide, c4_raise_swallowed_into_finished reqHello "net down" (by decide)⟩

/-- Claim C5: on the concrete request with one user message and
`model = m`, override unset and a successful call, exactly one `finished`
status is logged for the rollout, the informational record of the merged
call arguments is the very first event, and the `finished` record comes
later (at index 4). -/
theorem c5_concrete_happy_path :
    statusRecordsFor "r1" (workerEvents reqHello none (CompletionOutcome.success "ok")) =
        [Status.finished] ∧
      (workerEvents reqHello none (CompletionOutcome.success "ok")).findIdx?
        (fun e => match e with
          | Event.log r => r.level == Level.info &&
              r.msg == LogMsg.finalKwargs (completion_kwargs reqHello)
          | Event.completionCall _ => false) = some 0 ∧
      (workerEvents reqHello none (CompletionOutcome.success "ok")).findIdx?
        (fun e => e.statusOf == some Status.finished) = some 4 := by
  decide

/-- Claim C6 fails as stated: at a request whose `tools` field is present
but empty, the merged call arguments contain no `tools` key. -/
theorem c6_counterexample :
    reqEmptyTools.tools.isSome = true ∧
      dictGet (completion_kwargs reqEmptyTools) "tools" = none := by
  decide

/-- Claim C6 (amended): when the `completion_params` keys are distinct and
clash with neither `messages` nor `tools`, the merged call arguments are
exactly `messages` followed by every entry of `completion_params`, with
`tools` appended if and only if the request's `tools` field is truthy
(present and non-empty); and on a valid request the informational record
of the merged arguments is logged before the completion call is issued
(events 1 and 2 precede the call, event 3). -/
theorem c6_merged_kwargs_and_truthy_tools (req : InitRequest) (fee : Option String)
    (c : CompletionOutcome) (hv : validRequest req = true)
    (hnd : (req.completion_params.map Prod.fst).Nodup)
    (hm : "messages" ∉ req.completion_params.map Prod.fst)
    (ht : "tools" ∉ req.completion_params.map Prod.fst) :
    completion_kwargs req =
      ("messages", KwVal.msgs req.messages) ::
        (req.completion_params.map (fun p => (p.1, KwVal.prim p.2)) ++
          (if toolsTruthy req.tools then
            [("tools", KwVal.toolList (req.tools.getD []))] else [])) ∧
      (workerEvents req fee c).take 3 =
        [Event.log ⟨req.metadata.rollout_id, Level.info,
           LogMsg.finalKwargs (completion_kwargs req), none⟩,
         Event.log ⟨req.metadata.rollout_id, Level.info,
           LogMsg.sendingRequest ((dictGet req.completion_params "model").getD PyVal.vNone),
           none⟩,
         Event.completionCall (completion_kwargs req)] := by
  have hbase : req.completion_params.foldl
      (fun d p => dictInsert d p.1 (KwVal.prim p.2))
      [("messages", KwVal.msgs req.messages)] =
      ("messages", KwVal.msgs req.messages) ::
        req.completion_params.map (fun p => (p.1, KwVal.prim p.2)) := by
    have := foldl_dictInsert_fresh req.completion_params
      [("messages", KwVal.msgs req.messages)] hnd ?_
    · simpa using this
    · intro k hk
      have hne : ("messages" == k) = false := by
        refine beq_eq_false_iff_ne.mpr ?_
        intro hEq
        exact hm (hEq ▸ hk)
      simp [hne]
  have hkwargs : completion_kwargs req =
      ("messages", KwVal.msgs req.messages) ::
        (req.completion_params.map (fun p => (p.1, KwVal.prim p.2)) ++
          (if toolsTruthy req.tools then
            [("tools", KwVal.toolList (req.tools.getD []))] else [])) := by
    simp only [completion_kwargs]
    by_cases htt : toolsTruthy req.tools
    · have hfree : (("messages", KwVal.msgs req.messages) ::
          req.completion_params.map (fun p => (p.1, KwVal.prim p.2))).any
          (fun q => q.1 == "tools") = false := by
        rw [List.any_eq_false]
        intro q hq
        rcases List.mem_cons.mp hq with rfl | hq
        · intro hEq
          simp at hEq
        · obtain ⟨p, hp, rfl⟩ := List.mem_map.mp hq
          intro hEq
          have hp1 : p.1 = "tools" := by simpa using hEq
          apply ht
          rw [← hp1]
          exact List.mem_map_of_mem Prod.fst hp
      rw [if_pos htt, hbase, dictInsert_fresh _ _ _ hfree]
      simp [htt]
    · rw [Bool.not_eq_true] at htt
      rw [if_neg (by simp [htt]), hbase]
      simp [htt]
  refine ⟨hkwargs, ?_⟩
  rw [validRequest, Bool.and_eq_true, Bool.not_eq_true'] at hv
  obtain ⟨hmsg, hmod⟩ := hv
  cases c with
  | raises e =>
    simp [workerEvents, worker, tryBody, hmsg, hmod]
  | success resp =>
    by_cases hfe : pyTruthyStr fee <;>
      simp [workerEvents, worker, tryBody, hmsg, hmod, hfe]

/-- Claim C6, hypotheses discharged at the request carrying one tool. -/
theorem c6_merged_kwargs_and_truthy_tools_witness :
    validRequest reqWithTools = true ∧
      (reqWithTools.completion_params.map Prod.fst).Nodup ∧
      "messages" ∉ reqWithTools.completion_params.map Prod.fst ∧
      "tools" ∉ reqWithTools.completion_params.map Prod.fst ∧
      (completion_kwargs reqWithTools =
        ("messages", KwVal.msgs reqWithTools.messages) ::
          (reqWithTools.completion_params.map (fun p => (p.1, KwVal.prim p.2)) ++
            (if toolsTruthy reqWithTools.tools then
              [("tools", KwVal.toolList (reqWithTools.tools.getD []))] else [])) ∧
        (workerEvents reqWithTools none (CompletionOutcome.success "ok")).take 3 =
          [Event.log ⟨reqWithTools.metadata.rollout_id, Level.info,
             LogMsg.finalKwargs (completion_kwargs reqWithTools), none⟩,
           Event.log ⟨reqWithTools.metadata.rollout_id, Level.info,
             LogMsg.sendingRequest
               ((dictGet reqWithTools.completion_params "model").getD PyVal.vNone), none⟩,
           Event.completionCall (completion_kwargs reqWithTools)]) :=
  ⟨by decide, by decide, by decide, by decide,
    c6_merged_kwargs_and_truthy_tools reqWithTools none (CompletionOutcome.success "ok")
      (by decide) (by decide) (by decide) (by decide)⟩

/-- Claim C7: no exception escapes the worker function, whatever the
request, the override and the completion outcome — the `except Exception`
handler catches and swallows everything raised in the body. -/
theorem c7_no_exception_escapes (req : InitRequest) (fee : Option String)
    (c : CompletionOutcome) : (worker req fee c).2 = none := by
  have h : ∀ o, (exceptClause req.metadata.rollout_id o).2 = none := by
    intro o
    cases o <;> rfl
  simp [worker, h]

/-- Claim C9: every `init` call appends a filter keyed by its request's
rollout id to the process-wide filter state, and nothing ever removes
one: after any sequence of calls the state is exactly the old state
followed by the new rollout ids, so the old state is a prefix of the new
one. -/
theorem c9_filters_only_grow (fs : List String) (reqs : List InitRequest) :
    runInits fs reqs = fs ++ reqs.map (fun r => r.metadata.rollout_id) ∧
      fs <+: runInits fs reqs := by
  have h : ∀ gs : List String,
      runInits gs reqs = gs ++ reqs.map (fun r => r.metadata.rollout_id) := by
    induction reqs with
    | nil =>
      intro gs
      simp [runInits]
    | cons r rest ih =>
      intro gs
      show runInits (addFilterStep gs r) rest = _
      rw [ih]
      simp [addFilterStep]
  exact ⟨h fs, ⟨reqs.map (fun r => r.metadata.rollout_id), (h fs).symm⟩⟩

/-- Claim C10: on a request with empty `messages` or without a `model`
key, with the override unset, a Worker is started anyway and its trace
carries exactly one terminal status for that rollout id, namely
`finished` — the validation failure is converted into a normal terminal
event. -/
theorem c10_invalid_request_still_finishes (req : InitRequest) (c : CompletionOutcome)
    (h : req.messages = [] ∨ dictGet req.completion_params "model" = none) :
    (init req).worker_started = true ∧
      terminalStatusesFor req.metadata.rollout_id (workerEvents req none c) =
        [Status.finished] := by
  refine ⟨rfl, ?_⟩
  rcases tryBody_invalid req none c h with ht | ht <;>
    simp [workerEvents, worker, ht, exceptClause, finallyClause, pyTruthyStr,
      terminalStatusesFor, statusRecordsFor, recordsFor, Status.isTerminal]

/-- Claim C10, hypothesis discharged at the empty-messages request. -/
theorem c10_invalid_request_still_finishes_witness :
    (reqNoMsgs.messages = [] ∨ dictGet reqNoMsgs.completion_params "model" = none) ∧
      ((init reqNoMsgs).worker_started = true ∧
        terminalStatusesFor reqNoMsgs.metadata.rollout_id
          (workerEvents reqNoMsgs none (CompletionOutcome.raises "unreachable")) =
          [Status.finished]) :=
  ⟨Or.inl rfl,
    c10_invalid_request_still_finishes reqNoMsgs (CompletionOutcome.raises "unreachable")
      (Or.inl rfl)⟩

end RemoteServer
